import Mathlib

/-!
Shallow embedding of the kboot host-side test coordination core:
the result-ingestion pipeline (`src/ktest.rs`) and the round
coordinator's event-log scans (`src/event.rs`).

JSON values on the wire are modelled as association lists of fields;
a capture-file line is `Option Json`, `none` standing for a line that
fails to parse as JSON. Fallible operations return `Except String`,
mirroring `anyhow::Result` with the error messages of the source.
-/

namespace Kboot

/-- A JSON field value as far as the pipeline inspects it:
`as_str` / `as_u64` / `as_bool` succeed exactly on the matching
constructor; `other` covers every other JSON value. -/
inductive JVal where
| str : String → JVal
| num : Nat → JVal
| boolean : Bool → JVal
| other : JVal
deriving DecidableEq, Repr

/-- A parsed JSON object: an association list of fields. -/
def Json := List (String × JVal)

instance : DecidableEq Json := by
  unfold Json
  infer_instance

/-- `serde_json::Value::get(key)`. -/
def getField (j : Json) (k : String) : Option JVal :=
  (j.find? (fun p => p.1 == k)).map (fun p => p.2)

/-- `Value::as_str`. -/
def asStr : JVal → Option String
| JVal.str s => some s
| _ => none

/-- `Value::as_u64`. -/
def asNum : JVal → Option Nat
| JVal.num n => some n
| _ => none

/-- `Value::as_bool`. -/
def asBool : JVal → Option Bool
| JVal.boolean b => some b
| _ => none

/-- `TestResult` struct of `ktest.rs`. -/
structure TestResult where
  test : String
  result : String
  cycle_count : Nat
  location : Option String
  message : Option String
deriving DecidableEq, Repr

/-- `TestModule` struct of `ktest.rs`. -/
structure TestModule where
  module : String
  tests : List TestResult
deriving DecidableEq, Repr

/-- `TestSummary` struct of `ktest.rs`. -/
structure TestSummary where
  total : Nat
  passed : Nat
  failed : Nat
  ignored : Nat
  duration : Nat
deriving DecidableEq, Repr

/-- `TestGroup` struct of `ktest.rs`. -/
structure TestGroup where
  test_group : String
  summary : TestSummary
  modules : List TestModule
deriving DecidableEq, Repr

/-- The process-global mutable state of `ktest.rs`: the `TEST_GROUP`
and `USE_KVIEW` `OnceLock`s; `none` = not yet set. -/
structure IngestState where
  test_group : Option TestGroup
  use_kview : Option Bool
deriving DecidableEq, Repr

/-- The fresh state at the start of a run: neither `OnceLock` set. -/
def initState : IngestState := { test_group := none, use_kview := none }

/-- Splits a character list at the LAST occurrence of the
module separator `"::"`, mirroring `name.rsplitn(2, "::")`:
a match found further right takes precedence. Returns
`(before, after)` of the rightmost `"::"`, or `none` if the
separator does not occur. -/
def splitLastSep : List Char → Option (List Char × List Char)
| [] => none
| c :: rest =>
  match splitLastSep rest with
  | some (m, f) => some (c :: m, f)
  | none =>
    match rest with
    | c2 :: rest2 => if c = ':' ∧ c2 = ':' then some ([], rest2) else none
    | [] => none

/-- `module_from_name` of `ktest.rs`: the part of a fully qualified
test name before the last `"::"`, or `"unknown"` if there is none. -/
def module_from_name (name : String) : String :=
  match splitLastSep name.data with
  | some (m, _) => String.mk m
  | none => "unknown"

/-- `function_from_name` of `ktest.rs`: the part of a fully qualified
test name after the last `"::"`, or the whole name if there is none. -/
def function_from_name (name : String) : String :=
  match splitLastSep name.data with
  | some (_, f) => String.mk f
  | none => name

/-- The module-bucket update of `process_json_line` (ktest.rs lines
95-102): push the test onto the first bucket whose name matches,
or push a fresh bucket at the end of the list. -/
def addTest : List TestModule → String → TestResult → List TestModule
| [], m, t => [{ module := m, tests := [t] }]
| md :: rest, m, t =>
  if md.module = m then { module := md.module, tests := md.tests ++ [t] } :: rest
  else md :: addTest rest m t

/-- `process_test_group_json` of `ktest.rs`: parse a header line into
a `TestGroup` (with `summary.total = test_count`) and the `use_kview`
flag (defaulting to `false`). -/
def process_test_group_json (j : Json) (run_duration : Nat) :
    Except String (TestGroup × Bool) :=
  match (getField j "test_group").bind asStr with
  | none => Except.error "test_group field is missing or not a string"
  | some name =>
    match (getField j "test_count").bind asNum with
    | none => Except.error "test_count field is missing or not a u64"
    | some test_count =>
      let use_kview := (((getField j "use_kview").bind asBool).getD false)
      Except.ok ({ test_group := name,
                   summary := { total := test_count, passed := 0, failed := 0,
                                ignored := 0, duration := run_duration },
                   modules := [] }, use_kview)

/-- `process_test_json` of `ktest.rs`: parse a result line into a
`TestResult`; `location` and `message` are optional. -/
def process_test_json (j : Json) : Except String TestResult :=
  match (getField j "test").bind asStr with
  | none => Except.error "test field is missing or not a string"
  | some test =>
    match (getField j "result").bind asStr with
    | none => Except.error "result field is missing or not a string"
    | some result =>
      match (getField j "cycle_count").bind asNum with
      | none => Except.error "cycle_count field is missing or not a u64"
      | some cycle_count =>
        Except.ok { test := test, result := result, cycle_count := cycle_count,
                    location := (getField j "location").bind asStr,
                    message := (getField j "message").bind asStr }

/-- `process_json_line` of `ktest.rs` over the explicit global state.
The input line is `none` when it failed to parse as JSON, in which
case the `serde_json::from_str(line)?` error propagates. -/
def process_json_line (st : IngestState) (line : Option Json) (run_duration : Nat) :
    Except String IngestState :=
  match line with
  | none => Except.error "invalid JSON line"
  | some j =>
    if (getField j "test_group").isSome then
      match process_test_group_json j run_duration with
      | Except.error e => Except.error e
      | Except.ok gkv =>
        match st.test_group with
        | some _ => Except.error "Test group already set"
        | none =>
          match st.use_kview with
          | some _ => Except.error "Use kview already set"
          | none => Except.ok { test_group := some gkv.1, use_kview := some gkv.2 }
    else if (getField j "test").isSome then
      match process_test_json j with
      | Except.error e => Except.error e
      | Except.ok t =>
        match st.test_group with
        | none => Except.error "Test group not set before test result"
        | some g =>
          let module_name := module_from_name t.test
          let t2 := { t with test := function_from_name t.test }
          Except.ok { st with
            test_group := some { g with modules := addTest g.modules module_name t2 } }
    else
      Except.ok st

/-- The reader loop of `process_test_results` (ktest.rs lines 37-41):
process each line in order, propagating the first error. -/
def ingest_lines (st : IngestState) (lines : List (Option Json)) (run_duration : Nat) :
    Except String IngestState :=
  match lines with
  | [] => Except.ok st
  | l :: rest =>
    match process_json_line st l run_duration with
    | Except.error e => Except.error e
    | Except.ok st2 => ingest_lines st2 rest run_duration

/-- Count, across module buckets, of tests whose result string equals
`r` exactly (the iterator chains of `process_summary`). -/
def countResult (mods : List TestModule) (r : String) : Nat :=
  (mods.map (fun m => (m.tests.filter (fun t => t.result == r)).length)).sum

/-- `process_summary` of `ktest.rs`: fill in `passed`, `failed`, and
`ignored = total.saturating_sub(passed + failed)` on the accumulated
group; error if no group was accumulated. -/
def process_summary (st : IngestState) : Except String IngestState :=
  match st.test_group with
  | none => Except.error "No test group found for summary processing"
  | some g =>
    let passed := countResult g.modules "pass"
    let failed := countResult g.modules "fail"
    let ignored := g.summary.total - (passed + failed)
    let summary2 := { g.summary with passed := passed, failed := failed, ignored := ignored }
    Except.ok { st with test_group := some { g with summary := summary2 } }

/-! ### Filesystem model for persist and archive

Only the parts of the filesystem the pipeline touches are modelled:
the live `…/<build-dir>/testing` directory (a list of name, contents
pairs), the timestamped archive directories `testing-<epoch_ms>`, and
every file outside those, grouped as `outside`. -/

/-- Abstract filesystem state. -/
structure FileSys where
  testingExists : Bool
  testing : List (String × String)
  archives : List (Nat × List (String × String))
  outside : List (String × String)
deriving DecidableEq, Repr

/-- `fs::File::create` + write: create or truncate-and-overwrite the
named file. -/
def setFile (files : List (String × String)) (name content : String) :
    List (String × String) :=
  match files with
  | [] => [(name, content)]
  | (n, c) :: rest =>
    if n == name then (n, content) :: rest else (n, c) :: setFile rest name content

/-- `fs::remove_file`. -/
def removeFile : List (String × String) → String → List (String × String)
| [], _ => []
| (n, c) :: rest, name =>
  if n == name then removeFile rest name else (n, c) :: removeFile rest name

/-- Look a file up by name. -/
def lookupFile : List (String × String) → String → Option String
| [], _ => none
| (n, c) :: rest, name => if n == name then some c else lookupFile rest name

/-- The report file name computed at ktest.rs line 51:
`format!("tests-{}.json", test_group.test_group)`. -/
def report_file_name (g : TestGroup) : String :=
  "tests-" ++ g.test_group ++ ".json"

/-- Lines 45-55 of `process_test_results`: read the accumulated group,
write it as formatted JSON to the per-group report file inside the
live testing directory, then delete the raw capture file. `render`
abstracts `serde_json::to_writer_pretty`; `create_ok` and `write_ok`
say whether `File::create` and the JSON write succeed (on a failed
write the file has been created but holds no complete report).
Returns the filesystem as left at the point of return together with
the `Result`. -/
def persist_and_cleanup (render : TestGroup → String) (create_ok write_ok : Bool)
    (st : IngestState) (captureName : String) (fs : FileSys) :
    FileSys × Except String Unit :=
  match st.test_group with
  | none => (fs, Except.error "No test group found after processing test results")
  | some g =>
    if create_ok = false then
      (fs, Except.error "failed to create report file")
    else
      let fs1 := { fs with testing := setFile fs.testing (report_file_name g) (render g) }
      if write_ok = false then
        ({ fs with testing := setFile fs.testing (report_file_name g) "" },
         Except.error "failed to write report json")
      else
        ({ fs1 with testing := removeFile fs1.testing captureName }, Except.ok ())

/-- Splits a character list at the LAST `'.'`, as `Path::extension`
does after the leading character of the file name. -/
def splitLastDot : List Char → Option (List Char × List Char)
| [] => none
| c :: rest =>
  match splitLastDot rest with
  | some (s, e) => some (c :: s, e)
  | none => if c = '.' then some ([], rest) else none

/-- `path.extension().and_then(|s| s.to_str()) == Some("json")`:
the file name has a dot after its first character and the suffix
after the last dot is `json`. -/
def extJson (name : List Char) : Bool :=
  match name with
  | [] => false
  | _ :: rest =>
    match splitLastDot rest with
    | some (_, e) => e = "json".data
    | none => false

/-- The `read_dir` loop of `process_final_json` (ktest.rs lines
199-207): walk the testing directory's entries, renaming each `.json`
file into the archive; other entries stay behind. Returns
`(left behind, moved)`, both in directory order. -/
def move_json_files : List (String × String) →
    List (String × String) × List (String × String)
| [] => ([], [])
| (n, c) :: rest =>
  let p := move_json_files rest
  if extJson n.data then (p.1, (n, c) :: p.2)
  else ((n, c) :: p.1, p.2)

/-- `process_final_json` of `ktest.rs`: create the timestamped archive
directory `testing-<ts>`, move every `.json` file of the live testing
directory into it, then `remove_dir_all` the live testing directory. -/
def process_final_json (ts : Nat) (fs : FileSys) : FileSys :=
  let p := move_json_files fs.testing
  { testingExists := false,
    testing := [],
    archives := fs.archives ++ [(ts, p.2)],
    outside := fs.outside }

/-! ### Event-log model (`src/event.rs`)

The Coordinator classifies a raw log line by the substrings it
contains (`line.contains("TestRoundEndedEvent")` etc.) and only then,
for a `GroupStarted` line, parses it as JSON with `unwrap()`. A line
is therefore modelled as its marker flags plus its JSON parse result
(`none` = the line fails to parse as JSON). -/

/-- One raw line of the event log. -/
structure RawLine where
  hasRoundEnded : Bool
  hasRoundStarted : Bool
  hasGroupStarted : Bool
  json : Option Json
deriving DecidableEq

/-- The reverse-scan loop body of `is_start_of_test_round`. -/
def scanStart : List RawLine → Bool
| [] => true
| l :: rest =>
  if l.hasRoundEnded then true
  else if l.hasRoundStarted then false
  else scanStart rest

/-- `is_start_of_test_round` of `event.rs`: scan the log lines in
reverse; `true` on the first `TestRoundEndedEvent` marker, `false` on
the first `TestRoundStartedEvent` marker, `true` if neither occurs. -/
def is_start_of_test_round (lines : List RawLine) : Bool :=
  scanStart lines.reverse

/-- The reverse-scan loop body of `get_current_test_group`; `none`
models the `unwrap()` panic on a `GroupStarted`-marked line whose
JSON fails to parse or lacks a `u64` `current_test_group`. -/
def scanGroup : List RawLine → Option Nat
| [] => some 0
| l :: rest =>
  if l.hasRoundEnded then some 0
  else if l.hasGroupStarted then
    match l.json with
    | none => none
    | some j =>
      match (getField j "current_test_group").bind asNum with
      | none => none
      | some n => some (n + 1)
  else scanGroup rest

/-- `get_current_test_group` of `event.rs`: scan the log lines in
reverse; 0 on the first `TestRoundEndedEvent` marker, `n + 1` on the
first `TestGroupStartedEvent` marker carrying `current_test_group = n`,
0 if the scan exhausts the log. -/
def get_current_test_group (lines : List RawLine) : Option Nat :=
  scanGroup lines.reverse

/-- A line bearing a terminal marker (spec §4.1). -/
def terminalLine (l : RawLine) : Prop :=
  l.hasRoundEnded = true ∨ l.hasRoundStarted = true

/-- A line bearing an event relevant to `current_group_index`
(spec §4.1). -/
def relevantLine (l : RawLine) : Prop :=
  l.hasRoundEnded = true ∨ l.hasGroupStarted = true

/-! ### Lemmas about the reverse scans -/

theorem scanStart_skip (xs ys : List RawLine) (h : ∀ l ∈ xs, ¬terminalLine l) :
    scanStart (xs ++ ys) = scanStart ys := by
  induction xs with
  | nil => rfl
  | cons l xs ih =>
    have hl := h l (List.mem_cons_self _ _)
    simp only [terminalLine, not_or, Bool.not_eq_true] at hl
    simp only [List.cons_append, scanStart, hl.1, hl.2, if_false]
    exact ih (fun x hx => h x (List.mem_cons_of_mem _ hx))

theorem scanGroup_skip (xs ys : List RawLine) (h : ∀ l ∈ xs, ¬relevantLine l) :
    scanGroup (xs ++ ys) = scanGroup ys := by
  induction xs with
  | nil => rfl
  | cons l xs ih =>
    have hl := h l (List.mem_cons_self _ _)
    simp only [relevantLine, not_or, Bool.not_eq_true] at hl
    simp only [List.cons_append, scanGroup, hl.1, hl.2, if_false]
    exact ih (fun x hx => h x (List.mem_cons_of_mem _ hx))

theorem scanStart_all_skip (xs : List RawLine) (h : ∀ l ∈ xs, ¬terminalLine l) :
    scanStart xs = true := by
  have := scanStart_skip xs [] h
  simpa using this

theorem scanGroup_all_skip (xs : List RawLine) (h : ∀ l ∈ xs, ¬relevantLine l) :
    scanGroup xs = some 0 := by
  have := scanGroup_skip xs [] h
  simpa using this

/-- C3.  For every Event Log contents, `is_round_start()` returns true
if the most recently appended terminal marker (RoundStarted or
RoundEnded) is RoundEnded, returns true if the log contains no
terminal marker at all (including the empty log), and returns false if
the most recent terminal marker is RoundStarted. -/
theorem C3_is_round_start :
    (∀ lines : List RawLine, (∀ l ∈ lines, ¬terminalLine l) →
      is_start_of_test_round lines = true) ∧
    (∀ (pre : List RawLine) (l : RawLine) (post : List RawLine),
      l.hasRoundEnded = true → (∀ x ∈ post, ¬terminalLine x) →
      is_start_of_test_round (pre ++ l :: post) = true) ∧
    (∀ (pre : List RawLine) (l : RawLine) (post : List RawLine),
      l.hasRoundStarted = true → l.hasRoundEnded = false →
      (∀ x ∈ post, ¬terminalLine x) →
      is_start_of_test_round (pre ++ l :: post) = false) := by
  refine ⟨?_, ?_, ?_⟩
  · intro lines h
    have : ∀ l ∈ lines.reverse, ¬terminalLine l := by
      intro l hl
      exact h l (List.mem_reverse.mp hl)
    exact scanStart_all_skip _ this
  · intro pre l post hEnd hpost
    unfold is_start_of_test_round
    rw [List.reverse_append, List.reverse_cons, List.append_assoc]
    rw [scanStart_skip _ _ (fun x hx => hpost x (List.mem_reverse.mp hx))]
    simp [scanStart, hEnd]
  · intro pre l post hStart hEnd hpost
    unfold is_start_of_test_round
    rw [List.reverse_append, List.reverse_cons, List.append_assoc]
    rw [scanStart_skip _ _ (fun x hx => hpost x (List.mem_reverse.mp hx))]
    simp [scanStart, hEnd, hStart]

/-- Witness for C3 at concrete logs: the empty log, a log ending in a
RoundEnded marker, and a log whose most recent terminal marker is
RoundStarted. -/
theorem C3_is_round_start_witness :
    is_start_of_test_round [] = true ∧
    is_start_of_test_round
      [⟨false, true, false, none⟩, ⟨true, false, false, none⟩] = true ∧
    is_start_of_test_round
      [⟨false, true, false, none⟩, ⟨false, false, true, none⟩] = false := by
  refine ⟨C3_is_round_start.1 [] (by simp), ?_, ?_⟩
  · have h := C3_is_round_start.2.1 [⟨false, true, false, none⟩]
      ⟨true, false, false, none⟩ [] rfl (by simp)
    simpa using h
  · have h := C3_is_round_start.2.2 [] ⟨false, true, false, none⟩
      [⟨false, false, true, none⟩] rfl rfl (by simp [terminalLine])
    simpa using h

/-- C4.  For every Event Log contents, `current_group_index()` returns
0 when the most recent relevant event (RoundEnded or GroupStarted) is
RoundEnded, returns `current_test_group + 1` when the most recent
relevant event is `GroupStarted{current_test_group}`, and returns 0
when the log contains no relevant event (e.g. the empty log). -/
theorem C4_current_group_index :
    (∀ lines : List RawLine, (∀ l ∈ lines, ¬relevantLine l) →
      get_current_test_group lines = some 0) ∧
    (∀ (pre : List RawLine) (l : RawLine) (post : List RawLine),
      l.hasRoundEnded = true → (∀ x ∈ post, ¬relevantLine x) →
      get_current_test_group (pre ++ l :: post) = some 0) ∧
    (∀ (pre : List RawLine) (l : RawLine) (post : List RawLine) (j : Json) (n : Nat),
      l.hasRoundEnded = false → l.hasGroupStarted = true →
      l.json = some j → getField j "current_test_group" = some (JVal.num n) →
      (∀ x ∈ post, ¬relevantLine x) →
      get_current_test_group (pre ++ l :: post) = some (n + 1)) := by
  refine ⟨?_, ?_, ?_⟩
  · intro lines h
    have : ∀ l ∈ lines.reverse, ¬relevantLine l := by
      intro l hl
      exact h l (List.mem_reverse.mp hl)
    exact scanGroup_all_skip _ this
  · intro pre l post hEnd hpost
    unfold get_current_test_group
    rw [List.reverse_append, List.reverse_cons, List.append_assoc]
    rw [scanGroup_skip _ _ (fun x hx => hpost x (List.mem_reverse.mp hx))]
    simp [scanGroup, hEnd]
  · intro pre l post j n hEnd hGrp hjson hfield hpost
    unfold get_current_test_group
    rw [List.reverse_append, List.reverse_cons, List.append_assoc]
    rw [scanGroup_skip _ _ (fun x hx => hpost x (List.mem_reverse.mp hx))]
    simp [scanGroup, hEnd, hGrp, hjson, hfield, asNum]

/-- Witness for C4 at concrete logs: the empty log yields 0, a log
ending in RoundEnded yields 0, and a log ending with
`GroupStarted{current_test_group:2}` yields 3. -/
theorem C4_current_group_index_witness :
    get_current_test_group [] = some 0 ∧
    get_current_test_group
      [⟨false, false, true, some [("current_test_group", JVal.num 0)]⟩,
       ⟨true, false, false, none⟩] = some 0 ∧
    get_current_test_group
      [⟨false, false, true, some [("current_test_group", JVal.num 2),
                                  ("total_test_groups", JVal.num 5)]⟩] = some 3 := by
  refine ⟨C4_current_group_index.1 [] (by simp), ?_, ?_⟩
  · have h := C4_current_group_index.2.1
      [⟨false, false, true, some [("current_test_group", JVal.num 0)]⟩]
      ⟨true, false, false, none⟩ [] rfl (by simp)
    simpa using h
  · have h := C4_current_group_index.2.2 []
      ⟨false, false, true, some [("current_test_group", JVal.num 2),
                                 ("total_test_groups", JVal.num 5)]⟩
      [] [("current_test_group", JVal.num 2), ("total_test_groups", JVal.num 5)]
      2 rfl rfl rfl (by rfl) (by simp)
    simpa using h

/-! ### Ingestion error propagation (C1) -/

theorem ingest_lines_error_of_bad_line (st : IngestState) (lines : List (Option Json))
    (d : Nat) (h : none ∈ lines) :
    ∃ e, ingest_lines st lines d = Except.error e := by
  induction lines generalizing st with
  | nil => cases h
  | cons l rest ih =>
    cases l with
    | none => exact ⟨"invalid JSON line", rfl⟩
    | some j =>
      have hrest : none ∈ rest := by
        cases List.mem_cons.mp h with
        | inl hc => exact absurd hc (by simp)
        | inr hr => exact hr
      show ∃ e, ingest_lines st (some j :: rest) d = Except.error e
      rw [ingest_lines]
      cases hp : process_json_line st (some j) d with
      | error e => exact ⟨e, rfl⟩
      | ok st2 => exact ih st2 hrest

/-- A concrete header line `{"test_group":"kernel","test_count":3}`. -/
def hdrKernel : Json := [("test_group", JVal.str "kernel"), ("test_count", JVal.num 3)]

/-- Counterexample to C1 as stated: a capture line that fails to parse
as JSON makes ingestion return an error instead of being skipped, and
a GroupStarted-marked log line whose JSON fails to parse aborts the
Coordinator's backward scan (the `unwrap()` panic, modelled `none`)
instead of being skipped. -/
theorem C1_counterexample :
    ingest_lines initState [some hdrKernel, none] 0 =
      Except.error "invalid JSON line" ∧
    get_current_test_group [⟨false, false, true, none⟩] = none := by
  constructor
  · rfl
  · rfl

/-- C1 (amended).  During ingestion of the capture file, a line that
fails to parse as JSON, or a header line lacking a usable `test_count`
field, aborts ingestion with an error that propagates (the results of
the other lines are discarded); during the Coordinator's backward scan
of the Event Log, a line bearing no recognized marker substring is
skipped without affecting the scan, but a GroupStarted-marked line
whose JSON fails to parse aborts the scan. -/
theorem C1_malformed_lines :
    (∀ (st : IngestState) (lines : List (Option Json)) (d : Nat), none ∈ lines →
      ∃ e, ingest_lines st lines d = Except.error e) ∧
    (∀ (st : IngestState) (j : Json) (d : Nat),
      (getField j "test_group").isSome = true →
      ((getField j "test_count").bind asNum) = none →
      ∃ e, process_json_line st (some j) d = Except.error e) ∧
    (∀ (lines : List RawLine) (l : RawLine),
      l.hasRoundEnded = false → l.hasRoundStarted = false → l.hasGroupStarted = false →
      get_current_test_group (lines ++ [l]) = get_current_test_group lines) ∧
    (∀ (lines : List RawLine) (l : RawLine),
      l.hasRoundEnded = false → l.hasGroupStarted = true → l.json = none →
      get_current_test_group (lines ++ [l]) = none) := by
  refine ⟨ingest_lines_error_of_bad_line, ?_, ?_, ?_⟩
  · intro st j d hgrp hcnt
    rw [process_json_line]
    simp only [hgrp, if_true]
    rw [process_test_group_json]
    cases hs : (getField j "test_group").bind asStr with
    | none => exact ⟨_, rfl⟩
    | some name =>
      rw [hcnt]
      exact ⟨_, rfl⟩
  · intro lines l h1 h2 h3
    unfold get_current_test_group
    rw [List.reverse_append]
    simp only [List.reverse_cons, List.reverse_nil, List.nil_append, List.singleton_append]
    simp [scanGroup, h1, h2, h3]
  · intro lines l h1 h2 h3
    unfold get_current_test_group
    rw [List.reverse_append]
    simp only [List.reverse_cons, List.reverse_nil, List.nil_append, List.singleton_append]
    simp [scanGroup, h1, h2, h3]

/-- Witness for C1 (amended) at concrete inputs. -/
theorem C1_malformed_lines_witness :
    (∃ e, ingest_lines initState [none] 0 = Except.error e) ∧
    (∃ e, process_json_line initState
      (some [("test_group", JVal.str "kernel")]) 0 = Except.error e) ∧
    get_current_test_group [⟨true, false, false, none⟩, ⟨false, false, false, none⟩] =
      get_current_test_group [⟨true, false, false, none⟩] ∧
    get_current_test_group [⟨false, true, false, none⟩, ⟨false, false, true, none⟩] =
      none := by
  refine ⟨?_, ?_, ?_, ?_⟩
  · exact C1_malformed_lines.1 initState [none] 0 (by simp)
  · exact C1_malformed_lines.2.1 initState [("test_group", JVal.str "kernel")] 0
      (by rfl) (by rfl)
  · exact C1_malformed_lines.2.2.1 [⟨true, false, false, none⟩]
      ⟨false, false, false, none⟩ rfl rfl rfl
  · exact C1_malformed_lines.2.2.2 [⟨false, true, false, none⟩]
      ⟨false, false, true, none⟩ rfl rfl rfl

/-! ### Header lines (C5) and premature result lines (C10) -/

/-- Counterexample to C5 as stated: a second header line in the same
run is not ignored — the `OnceLock::set` failure is turned into the
error "Test group already set", which aborts ingestion. -/
theorem C5_counterexample :
    ingest_lines initState [some hdrKernel, some hdrKernel] 0 =
      Except.error "Test group already set" := by
  rfl

/-- C5 (amended).  Within a single run, only the first header line
allocates the accumulator (with `summary.total = test_count` and the
`use_kview` flag defaulted from the header); a subsequent header line
in the same run aborts ingestion with the error
"Test group already set". -/
theorem C5_header_lines :
    (∀ (j : Json) (d : Nat) (name : String) (count : Nat),
      getField j "test_group" = some (JVal.str name) →
      ((getField j "test_count").bind asNum) = some count →
      process_json_line initState (some j) d =
        Except.ok ⟨some ⟨name, ⟨count, 0, 0, 0, d⟩, []⟩,
                   some (((getField j "use_kview").bind asBool).getD false)⟩) ∧
    (∀ (st : IngestState) (j : Json) (d : Nat) (g : TestGroup) (name : String) (count : Nat),
      st.test_group = some g →
      getField j "test_group" = some (JVal.str name) →
      ((getField j "test_count").bind asNum) = some count →
      process_json_line st (some j) d = Except.error "Test group already set") := by
  constructor
  · intro j d name count hname hcount
    rw [process_json_line]
    simp only [hname, Option.isSome_some, if_true]
    rw [process_test_group_json]
    simp only [hname, Option.bind_some, asStr, hcount]
    rfl
  · intro st j d g name count hset hname hcount
    rw [process_json_line]
    simp only [hname, Option.isSome_some, if_true]
    rw [process_test_group_json]
    simp [hname, asStr, hcount, hset]

/-- Witness for C5 (amended): the first header allocates, the second
aborts. -/
theorem C5_header_lines_witness :
    process_json_line initState (some hdrKernel) 7 =
      Except.ok ⟨some ⟨"kernel", ⟨3, 0, 0, 0, 7⟩, []⟩, some false⟩ ∧
    process_json_line ⟨some ⟨"kernel", ⟨3, 0, 0, 0, 7⟩, []⟩, some false⟩
      (some hdrKernel) 7 = Except.error "Test group already set" := by
  constructor
  · have h := C5_header_lines.1 hdrKernel 7 "kernel" 3 (by rfl) (by rfl)
    simpa using h
  · exact C5_header_lines.2 _ hdrKernel 7 _ "kernel" 3 rfl (by rfl) (by rfl)

/-- C10.  A well-formed result line encountered before any header line
has allocated the accumulator makes ingestion fail with the error
"Test group not set before test result", rather than being ignored or
creating an accumulator implicitly. -/
theorem C10_result_before_header (st : IngestState) (j : Json) (d : Nat)
    (t r : String) (c : Nat)
    (hempty : st.test_group = none)
    (hnohdr : getField j "test_group" = none)
    (ht : getField j "test" = some (JVal.str t))
    (hr : getField j "result" = some (JVal.str r))
    (hc : getField j "cycle_count" = some (JVal.num c)) :
    process_json_line st (some j) d =
      Except.error "Test group not set before test result" := by
  rw [process_json_line]
  simp only [hnohdr, Option.isSome_none, Bool.false_eq_true, if_false,
    ht, Option.isSome_some, if_true]
  rw [process_test_json]
  simp [ht, hr, hc, asStr, asNum, hempty]

/-- Witness for C10: a result line as the first line of a run. -/
theorem C10_result_before_header_witness :
    process_json_line initState
      (some [("test", JVal.str "mem::alloc_basic"), ("result", JVal.str "pass"),
             ("cycle_count", JVal.num 10)]) 0 =
      Except.error "Test group not set before test result" := by
  exact C10_result_before_header initState
    [("test", JVal.str "mem::alloc_basic"), ("result", JVal.str "pass"),
     ("cycle_count", JVal.num 10)] 0 "mem::alloc_basic" "pass" 10
    rfl (by rfl) (by rfl) (by rfl) (by rfl)

/-! ### Summary counts (C7) -/

/-- C7.  For every finalized group report, `summary.passed` counts the
results whose result string is exactly "pass" and `summary.failed`
those exactly "fail", across all modules; `summary.ignored` is the
saturating subtraction `total - (passed + failed)`, i.e. the integer
`max 0 (total - (passed + failed))`, never negative. -/
theorem C7_summary_counts (st : IngestState) (g : TestGroup)
    (h : st.test_group = some g) :
    ∃ st2 : IngestState, process_summary st = Except.ok st2 ∧
      st2.use_kview = st.use_kview ∧
      ∃ g2 : TestGroup, st2.test_group = some g2 ∧
        g2.test_group = g.test_group ∧
        g2.modules = g.modules ∧
        g2.summary.total = g.summary.total ∧
        g2.summary.duration = g.summary.duration ∧
        g2.summary.passed = countResult g.modules "pass" ∧
        g2.summary.failed = countResult g.modules "fail" ∧
        g2.summary.ignored = g.summary.total - (g2.summary.passed + g2.summary.failed) ∧
        ((g2.summary.ignored : ℤ) =
          max 0 ((g2.summary.total : ℤ) -
            ((g2.summary.passed : ℤ) + (g2.summary.failed : ℤ)))) := by
  rw [process_summary, h]
  refine ⟨_, rfl, rfl, _, rfl, rfl, rfl, rfl, rfl, rfl, rfl, rfl, ?_⟩
  simp only []
  omega

/-- Witness for C7 at the claim's example: `test_count = 5` with only
2 observed results (one pass, one fail) gives `ignored = 3`. -/
theorem C7_summary_counts_witness :
    (∃ st2 : IngestState,
      process_summary ⟨some ⟨"kernel", ⟨5, 0, 0, 0, 9⟩,
          [⟨"mem", [⟨"a", "pass", 1, none, none⟩, ⟨"b", "fail", 2, none, none⟩]⟩]⟩,
        some false⟩ = Except.ok st2 ∧
      st2.use_kview = some false ∧
      ∃ g2 : TestGroup, st2.test_group = some g2 ∧
        g2.test_group = "kernel" ∧
        g2.modules = [⟨"mem", [⟨"a", "pass", 1, none, none⟩, ⟨"b", "fail", 2, none, none⟩]⟩] ∧
        g2.summary.total = 5 ∧
        g2.summary.duration = 9 ∧
        g2.summary.passed =
          countResult [⟨"mem", [⟨"a", "pass", 1, none, none⟩,
            ⟨"b", "fail", 2, none, none⟩]⟩] "pass" ∧
        g2.summary.failed =
          countResult [⟨"mem", [⟨"a", "pass", 1, none, none⟩,
            ⟨"b", "fail", 2, none, none⟩]⟩] "fail" ∧
        g2.summary.ignored = 5 - (g2.summary.passed + g2.summary.failed) ∧
        ((g2.summary.ignored : ℤ) =
          max 0 ((g2.summary.total : ℤ) -
            ((g2.summary.passed : ℤ) + (g2.summary.failed : ℤ))))) ∧
    process_summary ⟨some ⟨"kernel", ⟨5, 0, 0, 0, 9⟩,
        [⟨"mem", [⟨"a", "pass", 1, none, none⟩, ⟨"b", "fail", 2, none, none⟩]⟩]⟩,
      some false⟩ =
      Except.ok ⟨some ⟨"kernel", ⟨5, 1, 1, 3, 9⟩,
        [⟨"mem", [⟨"a", "pass", 1, none, none⟩, ⟨"b", "fail", 2, none, none⟩]⟩]⟩,
        some false⟩ := by
  constructor
  · exact C7_summary_counts
      ⟨some ⟨"kernel", ⟨5, 0, 0, 0, 9⟩,
          [⟨"mem", [⟨"a", "pass", 1, none, none⟩, ⟨"b", "fail", 2, none, none⟩]⟩]⟩,
        some false⟩
      ⟨"kernel", ⟨5, 0, 0, 0, 9⟩,
        [⟨"mem", [⟨"a", "pass", 1, none, none⟩, ⟨"b", "fail", 2, none, none⟩]⟩]⟩ rfl
  · rfl

/-! ### Module-name splitting and bucket order (C8) -/

/-- No occurrence of the module separator `"::"` anywhere in the
character list. -/
def noSep : List Char → Bool
| c :: c2 :: rest => !(c == ':' && c2 == ':') && noSep (c2 :: rest)
| _ => true

theorem splitLastSep_cons (c : Char) (rest : List Char) :
    splitLastSep (c :: rest) =
      match splitLastSep rest with
      | some (m, f) => some (c :: m, f)
      | none =>
        match rest with
        | c2 :: rest2 => if c = ':' ∧ c2 = ':' then some ([], rest2) else none
        | [] => none := rfl

theorem splitLastSep_eq_none (cs : List Char) (h : noSep cs = true) :
    splitLastSep cs = none := by
  induction cs with
  | nil => rfl
  | cons c rest ih =>
    cases rest with
    | nil => rfl
    | cons c2 rest2 =>
      simp only [noSep, Bool.and_eq_true, Bool.not_eq_true'] at h
      obtain ⟨hnot, h2⟩ := h
      have h1 : ¬(c = ':' ∧ c2 = ':') := by
        intro hcc
        rw [hcc.1, hcc.2] at hnot
        simp at hnot
      rw [splitLastSep_cons, ih h2]
      exact if_neg h1

theorem splitLastSep_append (m f : List Char) (h : noSep (':' :: f) = true) :
    splitLastSep (m ++ ':' :: ':' :: f) = some (m, f) := by
  induction m with
  | nil =>
    rw [List.nil_append, splitLastSep_cons, splitLastSep_eq_none (':' :: f) h]
    exact if_pos ⟨rfl, rfl⟩
  | cons a m ih =>
    rw [List.cons_append, splitLastSep_cons, ih]

/-- C8.  The module name of a result is the substring of the test
name before the last occurrence of `"::"` (or `"unknown"` if the
separator does not occur) and the case name the substring after it;
the result is appended to the module bucket matching that module
name, and a new bucket is created at the end of the list on first
occurrence, so buckets appear in first-seen order. -/
theorem C8_result_line_buckets :
    (∀ (m f : List Char), noSep (':' :: f) = true →
      module_from_name (String.mk (m ++ ':' :: ':' :: f)) = String.mk m ∧
      function_from_name (String.mk (m ++ ':' :: ':' :: f)) = String.mk f) ∧
    (∀ name : String, noSep name.data = true →
      module_from_name name = "unknown" ∧ function_from_name name = name) ∧
    (∀ (mods : List TestModule) (m : String) (t : TestResult),
      (∀ md ∈ mods, md.module ≠ m) →
      addTest mods m t = mods ++ [⟨m, [t]⟩]) ∧
    (∀ (pre : List TestModule) (md : TestModule) (post : List TestModule) (t : TestResult),
      (∀ x ∈ pre, x.module ≠ md.module) →
      addTest (pre ++ md :: post) md.module t =
        pre ++ ⟨md.module, md.tests ++ [t]⟩ :: post) ∧
    (∀ (st : IngestState) (g : TestGroup) (j : Json) (t : TestResult) (d : Nat),
      st.test_group = some g →
      getField j "test_group" = none →
      process_test_json j = Except.ok t →
      process_json_line st (some j) d =
        Except.ok ⟨some ⟨g.test_group, g.summary,
          addTest g.modules (module_from_name t.test)
            ⟨function_from_name t.test, t.result, t.cycle_count, t.location, t.message⟩⟩,
          st.use_kview⟩) := by
  refine ⟨?_, ?_, ?_, ?_, ?_⟩
  · intro m f h
    constructor
    · rw [module_from_name]
      rw [show (String.mk (m ++ ':' :: ':' :: f)).data = m ++ ':' :: ':' :: f from rfl]
      rw [splitLastSep_append m f h]
    · rw [function_from_name]
      rw [show (String.mk (m ++ ':' :: ':' :: f)).data = m ++ ':' :: ':' :: f from rfl]
      rw [splitLastSep_append m f h]
  · intro name h
    constructor
    · rw [module_from_name, splitLastSep_eq_none name.data h]
    · rw [function_from_name, splitLastSep_eq_none name.data h]
  · intro mods m t h
    induction mods with
    | nil => rfl
    | cons md rest ih =>
      rw [addTest]
      rw [if_neg (h md (List.mem_cons_self _ _))]
      rw [ih (fun x hx => h x (List.mem_cons_of_mem _ hx))]
      rfl
  · intro pre md post t h
    induction pre with
    | nil =>
      simp only [List.nil_append]
      rw [addTest, if_pos rfl]
    | cons x pre ih =>
      simp only [List.cons_append]
      rw [addTest]
      rw [if_neg (h x (List.mem_cons_self _ _))]
      rw [ih (fun y hy => h y (List.mem_cons_of_mem _ hy))]
  · intro st g j t d hset hnohdr hok
    have hts : (getField j "test").isSome = true := by
      cases hgf : getField j "test" with
      | none =>
        rw [process_test_json, hgf] at hok
        simp at hok
      | some v => rfl
    rw [process_json_line]
    simp only [hnohdr, Option.isSome_none, Bool.false_eq_true, if_false, hts, if_true]
    rw [hok, hset]

/-- Witness for C8 at concrete inputs: splitting `"mem::alloc_basic"`,
a separator-free name, first-seen bucket creation, appending to an
existing bucket, and a full result-line step. -/
theorem C8_result_line_buckets_witness :
    module_from_name "mem::alloc_basic" = "mem" ∧
    function_from_name "mem::alloc_basic" = "alloc_basic" ∧
    module_from_name "plain" = "unknown" ∧
    function_from_name "plain" = "plain" ∧
    addTest [⟨"mem", [⟨"a", "pass", 1, none, none⟩]⟩] "io" ⟨"r", "pass", 5, none, none⟩ =
      [⟨"mem", [⟨"a", "pass", 1, none, none⟩]⟩, ⟨"io", [⟨"r", "pass", 5, none, none⟩]⟩] ∧
    addTest [⟨"mem", [⟨"a", "pass", 1, none, none⟩]⟩] "mem" ⟨"b", "fail", 2, none, none⟩ =
      [⟨"mem", [⟨"a", "pass", 1, none, none⟩, ⟨"b", "fail", 2, none, none⟩]⟩] ∧
    process_json_line ⟨some ⟨"kernel", ⟨3, 0, 0, 0, 7⟩, []⟩, some false⟩
      (some [("test", JVal.str "mem::alloc_basic"), ("result", JVal.str "pass"),
             ("cycle_count", JVal.num 10)]) 7 =
      Except.ok ⟨some ⟨"kernel", ⟨3, 0, 0, 0, 7⟩,
        addTest [] (module_from_name "mem::alloc_basic")
          ⟨function_from_name "mem::alloc_basic", "pass", 10, none, none⟩⟩,
        some false⟩ := by
  refine ⟨?_, ?_, ?_, ?_, ?_, ?_, ?_⟩
  · have h := (C8_result_line_buckets.1 "mem".data "alloc_basic".data (by decide)).1
    simpa using h
  · have h := (C8_result_line_buckets.1 "mem".data "alloc_basic".data (by decide)).2
    simpa using h
  · exact (C8_result_line_buckets.2.1 "plain" (by decide)).1
  · exact (C8_result_line_buckets.2.1 "plain" (by decide)).2
  · have h := C8_result_line_buckets.2.2.1
      [⟨"mem", [⟨"a", "pass", 1, none, none⟩]⟩] "io" ⟨"r", "pass", 5, none, none⟩
      (by decide)
    simpa using h
  · have h := C8_result_line_buckets.2.2.2.1
      [] ⟨"mem", [⟨"a", "pass", 1, none, none⟩]⟩ [] ⟨"b", "fail", 2, none, none⟩
      (by simp)
    simpa using h
  · exact C8_result_line_buckets.2.2.2.2
      ⟨some ⟨"kernel", ⟨3, 0, 0, 0, 7⟩, []⟩, some false⟩
      ⟨"kernel", ⟨3, 0, 0, 0, 7⟩, []⟩
      [("test", JVal.str "mem::alloc_basic"), ("result", JVal.str "pass"),
       ("cycle_count", JVal.num 10)]
      ⟨"mem::alloc_basic", "pass", 10, none, none⟩ 7 rfl (by rfl) (by rfl)

/-! ### Filesystem lemmas (C2, C6, C9) -/

theorem lookupFile_setFile_self (files : List (String × String)) (n c : String) :
    lookupFile (setFile files n c) n = some c := by
  induction files with
  | nil => simp [setFile, lookupFile]
  | cons p rest ih =>
    rcases p with ⟨pn, pc⟩
    by_cases h : pn = n
    · simp [setFile, lookupFile, h]
    · simp [setFile, lookupFile, h, ih]

theorem lookupFile_setFile_other (files : List (String × String)) (n c m : String)
    (hne : m ≠ n) :
    lookupFile (setFile files n c) m = lookupFile files m := by
  have hnm : n ≠ m := fun hc => hne hc.symm
  induction files with
  | nil => simp [setFile, lookupFile, hnm]
  | cons p rest ih =>
    rcases p with ⟨pn, pc⟩
    by_cases h : pn = n
    · simp [setFile, lookupFile, h, hnm]
    · simp [setFile, lookupFile, h, ih]

theorem lookupFile_setFile_isSome (files : List (String × String)) (n c m : String)
    (h : lookupFile files m ≠ none) :
    lookupFile (setFile files n c) m ≠ none := by
  by_cases hm : m = n
  · rw [hm, lookupFile_setFile_self]
    exact Option.some_ne_none c
  · rw [lookupFile_setFile_other files n c m hm]
    exact h

theorem lookupFile_removeFile_other (files : List (String × String)) (n m : String)
    (hne : m ≠ n) :
    lookupFile (removeFile files n) m = lookupFile files m := by
  have hnm : n ≠ m := fun hc => hne hc.symm
  induction files with
  | nil => rfl
  | cons p rest ih =>
    rcases p with ⟨pn, pc⟩
    by_cases h : pn = n
    · simp [removeFile, lookupFile, h, hnm, ih]
    · simp [removeFile, lookupFile, h, ih]

/-! ### Persisted report path (C2) and capture-file crash safety (C6) -/

/-- Counterexample to C2 as stated: with a group whose header named it
"kernel", the report is persisted to `tests-kernel.json` — keyed by
the group's name — and no `tests-0.json` (the file keyed by the
numeric group index of the round's first group) is written. -/
theorem C2_counterexample :
    (persist_and_cleanup (fun _ => "report") true true
        ⟨some ⟨"kernel", ⟨3, 2, 1, 0, 7⟩, []⟩, some false⟩
        "tests-d3adbeef.json" ⟨true, [("tests-d3adbeef.json", "raw")], [], []⟩).1.testing =
      [("tests-kernel.json", "report")] ∧
    lookupFile (persist_and_cleanup (fun _ => "report") true true
        ⟨some ⟨"kernel", ⟨3, 2, 1, 0, 7⟩, []⟩, some false⟩
        "tests-d3adbeef.json" ⟨true, [("tests-d3adbeef.json", "raw")], [], []⟩).1.testing
      "tests-0.json" = none := by
  constructor
  · rfl
  · rfl

/-- C2 (amended).  For every run that ingests a capture file, the
persisted report is written inside the live testing directory to the
file `tests-<group-name>.json`, where `<group-name>` is the
`test_group` string parsed from the capture's header line — not the
numeric index of the group within the round. -/
theorem C2_report_path (render : TestGroup → String) (st : IngestState)
    (g : TestGroup) (cap : String) (fs : FileSys)
    (hg : st.test_group = some g)
    (hne : cap ≠ report_file_name g) :
    (persist_and_cleanup render true true st cap fs).2 = Except.ok () ∧
    lookupFile (persist_and_cleanup render true true st cap fs).1.testing
      (report_file_name g) = some (render g) ∧
    report_file_name g = "tests-" ++ g.test_group ++ ".json" := by
  have hkey : persist_and_cleanup render true true st cap fs =
      ({ fs with testing :=
          removeFile (setFile fs.testing (report_file_name g) (render g)) cap },
       Except.ok ()) := by
    rw [persist_and_cleanup, hg]
    rfl
  rw [hkey]
  refine ⟨rfl, ?_, rfl⟩
  show lookupFile (removeFile (setFile fs.testing (report_file_name g) (render g)) cap)
      (report_file_name g) = some (render g)
  rw [lookupFile_removeFile_other _ cap _ (fun hc => hne hc.symm)]
  exact lookupFile_setFile_self fs.testing (report_file_name g) (render g)

/-- Witness for C2 (amended) at a concrete run. -/
theorem C2_report_path_witness :
    (persist_and_cleanup (fun _ => "report") true true
        ⟨some ⟨"kernel", ⟨3, 2, 1, 0, 7⟩, []⟩, some false⟩
        "tests-d3adbeef.json" ⟨true, [("tests-d3adbeef.json", "raw")], [], []⟩).2 =
      Except.ok () ∧
    lookupFile (persist_and_cleanup (fun _ => "report") true true
        ⟨some ⟨"kernel", ⟨3, 2, 1, 0, 7⟩, []⟩, some false⟩
        "tests-d3adbeef.json" ⟨true, [("tests-d3adbeef.json", "raw")], [], []⟩).1.testing
      (report_file_name ⟨"kernel", ⟨3, 2, 1, 0, 7⟩, []⟩) = some "report" ∧
    report_file_name ⟨"kernel", ⟨3, 2, 1, 0, 7⟩, []⟩ = "tests-" ++ "kernel" ++ ".json" := by
  exact C2_report_path (fun _ => "report") ⟨some ⟨"kernel", ⟨3, 2, 1, 0, 7⟩, []⟩, some false⟩
    ⟨"kernel", ⟨3, 2, 1, 0, 7⟩, []⟩ "tests-d3adbeef.json"
    ⟨true, [("tests-d3adbeef.json", "raw")], [], []⟩ rfl (by decide)

/-- C6.  The raw capture file is deleted only after the group's report
has been successfully persisted: if persisting fails (no accumulated
group, failed file creation, or failed JSON write), the capture file
is never deleted; conversely, if the capture file is gone afterwards,
persistence succeeded. -/
theorem C6_capture_survives (render : TestGroup → String) (cok wok : Bool)
    (st : IngestState) (cap : String) (fs : FileSys)
    (hpresent : lookupFile fs.testing cap ≠ none) :
    ((persist_and_cleanup render cok wok st cap fs).2 ≠ Except.ok () →
      lookupFile (persist_and_cleanup render cok wok st cap fs).1.testing cap ≠ none) ∧
    (lookupFile (persist_and_cleanup render cok wok st cap fs).1.testing cap = none →
      (persist_and_cleanup render cok wok st cap fs).2 = Except.ok () ∧
      cok = true ∧ wok = true) := by
  rw [persist_and_cleanup]
  cases hg : st.test_group with
  | none =>
    exact ⟨fun _ => hpresent, fun habs => absurd habs hpresent⟩
  | some g =>
    cases cok with
    | false =>
      exact ⟨fun _ => hpresent, fun habs => absurd habs hpresent⟩
    | true =>
      cases wok with
      | false =>
        have hstill : lookupFile (setFile fs.testing (report_file_name g) "") cap ≠ none :=
          lookupFile_setFile_isSome fs.testing (report_file_name g) "" cap hpresent
        exact ⟨fun _ => hstill, fun habs => absurd habs hstill⟩
      | true =>
        exact ⟨fun hne => absurd rfl hne, fun _ => ⟨rfl, rfl, rfl⟩⟩

/-- Witness for C6 at a concrete run with a failed JSON write: the
conclusion of `C6_capture_survives` instantiated there. -/
theorem C6_capture_survives_witness :
    ((persist_and_cleanup (fun _ => "report") true false
        ⟨some ⟨"kernel", ⟨3, 2, 1, 0, 7⟩, []⟩, some false⟩
        "tests-d3adbeef.json" ⟨true, [("tests-d3adbeef.json", "raw")], [], []⟩).2 ≠
          Except.ok () →
      lookupFile (persist_and_cleanup (fun _ => "report") true false
        ⟨some ⟨"kernel", ⟨3, 2, 1, 0, 7⟩, []⟩, some false⟩
        "tests-d3adbeef.json" ⟨true, [("tests-d3adbeef.json", "raw")], [], []⟩).1.testing
        "tests-d3adbeef.json" ≠ none) ∧
    (lookupFile (persist_and_cleanup (fun _ => "report") true false
        ⟨some ⟨"kernel", ⟨3, 2, 1, 0, 7⟩, []⟩, some false⟩
        "tests-d3adbeef.json" ⟨true, [("tests-d3adbeef.json", "raw")], [], []⟩).1.testing
        "tests-d3adbeef.json" = none →
      (persist_and_cleanup (fun _ => "report") true false
        ⟨some ⟨"kernel", ⟨3, 2, 1, 0, 7⟩, []⟩, some false⟩
        "tests-d3adbeef.json" ⟨true, [("tests-d3adbeef.json", "raw")], [], []⟩).2 =
        Except.ok () ∧ true = true ∧ false = true) := by
  exact C6_capture_survives (fun _ => "report") true false
    ⟨some ⟨"kernel", ⟨3, 2, 1, 0, 7⟩, []⟩, some false⟩
    "tests-d3adbeef.json" ⟨true, [("tests-d3adbeef.json", "raw")], [], []⟩
    (by decide)

/-! ### Round archiving (C9) -/

theorem move_json_files_moved (l : List (String × String)) :
    (move_json_files l).2 = l.filter (fun p => extJson p.1.data) := by
  induction l with
  | nil => rfl
  | cons p rest ih =>
    rcases p with ⟨n, c⟩
    by_cases h : extJson n.data = true
    · simp [move_json_files, h, ih, List.filter]
    · simp [move_json_files, h, ih, List.filter]

/-- C9.  `archive_round()` creates a new directory named with the
current epoch-millisecond timestamp, moves every `*.json` file of the
live testing directory into it (in directory order), leaves the live
testing directory absent afterward, and leaves every file outside the
live testing directory — and every previously archived round —
untouched. -/
theorem C9_archive_round (ts : Nat) (fs : FileSys) :
    (process_final_json ts fs).outside = fs.outside ∧
    (process_final_json ts fs).testingExists = false ∧
    (process_final_json ts fs).testing = [] ∧
    (process_final_json ts fs).archives =
      fs.archives ++ [(ts, fs.testing.filter (fun p => extJson p.1.data))] := by
  refine ⟨rfl, rfl, rfl, ?_⟩
  rw [process_final_json]
  rw [move_json_files_moved fs.testing]

end Kboot
